import Mathlib

/-!
Shallow embedding of the debate/contact backend (`src/app`):
the debate orchestration pipeline in `app/features/debate/service.py`,
its SSE transport in `app/features/debate/router.py`, and the contact
draft endpoints in `app/routers_contact.py`.

Python strings are modelled as Lean `String`; the Python string methods
used by the code (`str.strip`, `str.split`, `str.replace`) are given
executable models over `String.data` below, because the corresponding
core-library functions do not reduce inside the kernel.  Model calls
(`Runner.run`), the search API and page fetches are oracles passed as
explicit arguments: a call that can raise is an `Except`-valued input,
a call whose exceptions the code absorbs is a plain function.
-/

/-- Whitespace predicate of Python `str.strip()` (ASCII whitespace:
space, tab, newline, carriage return, vertical tab, form feed). -/
def pyIsSpace (c : Char) : Bool :=
  c == ' ' || c == '\t' || c == '\n' || c == '\x0d' || c == '\x0b' || c == '\x0c'

/-- Drop leading and trailing whitespace from a character list. -/
def stripList (l : List Char) : List Char :=
  ((l.dropWhile pyIsSpace).reverse.dropWhile pyIsSpace).reverse

/-- Model of Python `s.strip()`. -/
def pyStrip (s : String) : String :=
  String.mk (stripList s.data)

/-- Split a character list on a separator character, keeping empty
segments, as Python `s.split(sep)` does for a one-character `sep`. -/
def splitOnChar (c : Char) : List Char → List (List Char)
  | [] => [[]]
  | x :: xs =>
    if x = c then [] :: splitOnChar c xs
    else
      match splitOnChar c xs with
      | [] => [[x]]
      | h :: t => (x :: h) :: t

/-- Model of Python `s.split("\n")`. -/
def pySplitNewline (s : String) : List String :=
  (splitOnChar '\n' s.data).map String.mk

/-- Replace every non-overlapping occurrence of `pat` (non-empty) in the
list, scanning left to right; `fuel` bounds the recursion and is set to
the input length, which suffices since every step consumes at least one
character. -/
def replaceAux (pat repl : List Char) : Nat → List Char → List Char
  | _, [] => []
  | 0, l => l
  | fuel + 1, x :: xs =>
    if pat.isPrefixOf (x :: xs) then
      repl ++ replaceAux pat repl fuel ((x :: xs).drop pat.length)
    else
      x :: replaceAux pat repl fuel xs

/-- Model of Python `s.replace(pat, repl)` for a non-empty `pat` (the
code only replaces the literal labels "Side 1:" / "Side 2:"). -/
def pyReplace (s pat repl : String) : String :=
  if pat.data = [] then s
  else String.mk (replaceAux pat.data repl.data s.data.length s.data)

example : pyStrip "  hi  " = "hi" := by decide
example : pyStrip "" = "" := by decide
example : pySplitNewline "a\nb" = ["a", "b"] := by decide
example : pySplitNewline "" = [""] := by decide
example : pyReplace "Side 1: cats" "Side 1:" "" = " cats" := by decide
example : pyReplace "x Side 1: y Side 1: z" "Side 1:" "" = "x  y  z" := by decide
example : pyStrip (pyReplace "Side 1:" "Side 1:" "") = "" := by decide

/-! ## Debate service (`app/features/debate/service.py`) -/

deriving instance DecidableEq for Except

/-- One debate message as yielded by `generate_debate`: the dict literal
built at lines 301-305 has exactly the three keys `speaker`, `message`
and `position`. -/
structure Turn where
  speaker : String
  message : String
  position : String
deriving DecidableEq, Repr

/-- The non-empty stripped lines of the position-analyzer output
(line 201): `[line.strip() for line in positions_text.split("\n") if line.strip()]`. -/
def positionLines (finalOutput : Option String) : List String :=
  ((pySplitNewline (pyStrip (finalOutput.getD ""))).map pyStrip).filter (fun l => l != "")

/-- Position extraction (lines 197-203): strip the model output, split
into non-empty lines, remove the "Side 1:" / "Side 2:" labels from the
first two lines, with fixed fallbacks when lines are missing.
`finalOutput` is `result.final_output` of the position model call
(`none` models Python `None`). -/
def extract_positions (finalOutput : Option String) : String × String :=
  let lines := positionLines finalOutput
  let position_1 :=
    match lines[0]? with
    | some l => pyStrip (pyReplace l "Side 1:" "")
    | none => "Supporting the topic"
  let position_2 :=
    match lines[1]? with
    | some l => pyStrip (pyReplace l "Side 2:" "")
    | none => "Opposing the topic"
  (position_1, position_2)

example : extract_positions none = ("Supporting the topic", "Opposing the topic") := by decide
example : extract_positions (some "Side 1: Cats\nSide 2: Dogs") = ("Cats", "Dogs") := by decide
example : extract_positions (some "  Only one line  ") = ("Only one line", "Opposing the topic") := by decide

/-- Model of `refine_search_query` (lines 60-84): one model call converting the
topic into a search query.  `runResult` is the outcome of
`Runner.run(query_agent, prompt)`: `Except.error` models the call
raising, `Except.ok out` models a completed call with
`result.final_output = out`.  The code computes
`(result.final_output or topic).strip()`, so the fallback to the raw
topic happens only when the call completes with `None` or an empty
string; an exception propagates to the caller. -/
def refine_search_query (topic : String) (runResult : Except Unit (Option String)) :
    Except Unit String :=
  match runResult with
  | Except.error e => Except.error e
  | Except.ok out =>
    Except.ok (pyStrip (match out with
      | none => topic
      | some s => if s = "" then topic else s))

example : refine_search_query "t" (Except.error ()) = Except.error () := by decide
example : refine_search_query " t " (Except.ok none) = Except.ok "t" := by decide
example : refine_search_query "t" (Except.ok (some " q ")) = Except.ok "q" := by decide

/-- Per-result formatting inside `perform_web_search` (line 144):
`f"📄 {title}\n{content}\nSource: {url}"`. -/
def formatResult (url title content : String) : String :=
  "📄 " ++ title ++ "\n" ++ content ++ "\nSource: " ++ url

/-- The join separator of `perform_web_search` (line 147):
`"\n\n" + "="*80 + "\n\n"`. -/
def searchDivider : String :=
  "\n\n" ++ String.mk (List.replicate 80 '=') ++ "\n\n"

/-- URL selection from the organic search results (lines 117-122): take
the first 3 items and keep those whose link and title are both
non-empty, as `(link, title)` pairs in discovery order. -/
def selectUrls (organic : List (String × String)) : List (String × String) :=
  (organic.take 3).filter (fun p => p.1 != "" && p.2 != "")

/-- The result-collection loop of `perform_web_search` (lines 139-144):
walk the `zip(titles, contents)` pairs in order, skip entries whose
gathered value is an exception (`return_exceptions=True`) or an empty
string, and format the rest. -/
def collectResults : List ((String × String) × Except Unit String) → List String
  | [] => []
  | (p, c) :: rest =>
    match c with
    | Except.error _ => collectResults rest
    | Except.ok content =>
      if content = "" then collectResults rest
      else formatResult p.1 p.2 content :: collectResults rest

/-- Model of `perform_web_search` (lines 87-154).  `serpKey` is
`settings.SERPAPI_API_KEY`; `apiCall` is the outcome of the SerpAPI
request plus JSON parsing, yielding the `(link, title)` pairs of
`organic_results` (`Except.error` models any exception, which the
enclosing `try` absorbs); `contents` are the per-URL results of
`asyncio.gather(..., return_exceptions=True)`, aligned with the
selected URLs in discovery order.  Always returns a string. -/
def perform_web_search (serpKey : Option String)
    (apiCall : Except Unit (List (String × String)))
    (contents : List (Except Unit String)) : String :=
  if serpKey.getD "" = "" then ""
  else
    match apiCall with
    | Except.error _ => ""
    | Except.ok organic =>
      let urls := selectUrls organic
      if urls = [] then ""
      else
        let results := collectResults (urls.zip contents)
        if results = [] then ""
        else String.intercalate searchDivider results

/-- The search-context stage of `generate_debate` (lines 208-219):
`search_context` starts empty; when `allow_search` is set, the topic is
refined into a search query (a model call that may raise) and searched,
and a non-empty search result is wrapped in the background-information
header.  An exception from `refine_search_query` propagates (there is
no `try` around these lines).  `webSearch` maps the refined query to
the (never-raising) result of `perform_web_search`. -/
def search_context_stage (topic : String) (allow_search : Bool)
    (refineRun : Except Unit (Option String)) (webSearch : String → String) :
    Except Unit String :=
  if allow_search then
    match refine_search_query topic refineRun with
    | Except.error e => Except.error e
    | Except.ok search_query =>
      let search_results := webSearch search_query
      Except.ok (if search_results != "" then
        "Background information from recent sources:\n\n" ++ search_results ++ "\n\n"
      else "")
  else Except.ok ""

/-- The fixed style-guidelines block shared by both debater agents
(lines 228-234 and 245-251). -/
def styleGuidelines : String :=
  "Style guidelines (casual chat, not a courtroom):\n" ++
  "- Sound natural and friendly; use contractions (you\x27re, it\x27s, don\x27t).\n" ++
  "- Keep it short (1–2 sentences), conversational, no lists or bullet points.\n" ++
  "- Build on what the other person just said; acknowledge good points.\n" ++
  "- Ask an occasional brief question to keep it flowing.\n" ++
  "- Avoid formal debate language, citations, or jargon.\n" ++
  "- No role-play meta talk (don\x27t say \x27as an AI\x27 or \x27as a debater\x27)."

/-- The instructions string of a debater agent (lines 222-237 for
debater 1, lines 239-254 for debater 2; the two differ only in the
position interpolated). -/
def persona_instructions (search_context position topic : String) : String :=
  search_context ++
  "You\x27re chatting as a friend who leans toward: " ++ position ++ ".\n" ++
  "Topic: " ++ topic ++ "\n\n" ++
  styleGuidelines

/-- Speaker name for turn `i` (line 264): `debater_1` on even turns,
`debater_2` on odd turns. -/
def speakerFor (turn : Nat) : String :=
  if turn % 2 == 0 then "debater_1" else "debater_2"

/-- The opening prompt of turn 0 (lines 270-273). -/
def openingPrompt (topic : String) : String :=
  "Start a casual conversation with a greeting, then bring up: " ++ topic ++
  ". Say hello naturally, then share your take in 1–2 sentences total. Keep it light and conversational."

/-- The header of a continuation prompt (lines 276-279). -/
def continuationHeader (topic : String) : String :=
  "Continue the casual chat about: " ++ topic ++
  "\n\nConversation so far (most recent last):\n"

/-- One serialized history entry (lines 280-282):
`"Your opponent"` when the entry\x27s speaker differs from the current
speaker, `"You"` otherwise, then `": "`, the message, and a blank line. -/
def historyLine (current_speaker : String) (msg : Turn) : String :=
  (if msg.speaker ≠ current_speaker then "Your opponent" else "You") ++
  ": " ++ msg.message ++ "\n\n"

/-- The continuation instruction appended after the history
(lines 284-287). -/
def replyInstruction : String :=
  "Reply like a friend: acknowledge what was said, add your perspective, " ++
  "maybe ask a short follow-up. Keep it 1–2 sentences, no lists."

/-- The closing instruction appended only on the final turn
(lines 290-294). -/
def closingInstruction : String :=
  " This is your last message. Wrap up warmly and end with a concise " ++
  "statement (no questions)."

/-- Prompt construction for one turn (lines 268-294): the opening
prompt on turn 0; otherwise the continuation header, the serialized
conversation history in order, the reply instruction, and — on turn 5
only — the closing instruction. -/
def buildPrompt (topic current_speaker : String) (history : List Turn) (turn : Nat) : String :=
  if turn == 0 then openingPrompt topic
  else
    let prompt := history.foldl (fun acc msg => acc ++ historyLine current_speaker msg)
      (continuationHeader topic)
    let prompt := prompt ++ replyInstruction
    if turn == 5 then prompt ++ closingInstruction else prompt

/-- The oracle bundling the external model/search calls made by one run
of `generate_debate`: the `final_output` of the position-analyzer call,
the outcome of the query-refinement call (which may raise), the result
of `perform_web_search` as a function of the refined query, and the
`final_output` of each turn\x27s model call as a function of the turn
index and the prompt passed to `Runner.run`. -/
structure ModelOracle where
  positionsOutput : Option String
  refineRun : Except Unit (Option String)
  webSearch : String → String
  turnOutput : Nat → String → Option String

/-- One iteration of the turn loop (lines 260-309): pick the speaker
and position by parity, build the prompt from the history accumulated
so far, run the model, strip the output, and record the three-field
message dict. -/
def debateStep (topic position_1 position_2 : String)
    (turnOutput : Nat → String → Option String) (turn : Nat) (history : List Turn) : Turn :=
  let current_speaker := speakerFor turn
  let current_position := if turn % 2 == 0 then position_1 else position_2
  let prompt := buildPrompt topic current_speaker history turn
  let message := pyStrip ((turnOutput turn prompt).getD "")
  { speaker := current_speaker, message := message, position := current_position }

/-- The first `n` iterations of the turn loop, returning the
conversation history they append (line 306); the full loop runs
`n = 6`. -/
def debateLoop (topic position_1 position_2 : String)
    (turnOutput : Nat → String → Option String) : Nat → List Turn
  | 0 => []
  | n + 1 =>
    let history := debateLoop topic position_1 position_2 turnOutput n
    history ++ [debateStep topic position_1 position_2 turnOutput n history]

/-- The prompt passed to `Runner.run` on turn `k` (definitionally the
`prompt` computed by `debateStep` inside iteration `k` of
`debateLoop`, whose history argument is the first `k` turns). -/
def promptAt (topic position_1 position_2 : String)
    (turnOutput : Nat → String → Option String) (k : Nat) : String :=
  buildPrompt topic (speakerFor k) (debateLoop topic position_1 position_2 turnOutput k) k

/-- How a run of `generate_debate` ends when it does not complete:
`configError` models the `ValueError` raised at lines 172-173 when
`GROQ_API_KEY` is unset, `groundingError` models any other exception
escaping the body (the only unguarded non-model-call site before the
turn loop is the query-refinement call at line 211). -/
inductive DebateError where
  | configError
  | groundingError
deriving DecidableEq, Repr

/-- Model of `generate_debate` (lines 157-309) for runs whose six turn model
calls complete: raises (`Except.error`) when the Groq key is unset
(Python falsy: `None` or empty) or when the search-context stage
raises; otherwise extracts the two positions, resolves the search
context, and yields the six turns of the loop. -/
def generate_debate (groqKey : Option String) (topic : String) (allow_search : Bool)
    (o : ModelOracle) : Except DebateError (List Turn) :=
  if groqKey.getD "" = "" then Except.error DebateError.configError
  else
    match search_context_stage topic allow_search o.refineRun o.webSearch with
    | Except.error _ => Except.error DebateError.groundingError
    | Except.ok _search_context =>
      Except.ok (debateLoop topic (extract_positions o.positionsOutput).1
        (extract_positions o.positionsOutput).2 o.turnOutput 6)

/-! ## Debate transport (`app/features/debate/router.py`) -/

/-- JSON string escaping of `json.dumps` for the characters that need a
short escape (quote, backslash, and the common control characters);
other characters are passed through.  (The `\uXXXX` escaping of
non-ASCII characters is not modelled; no theorem below depends on
it.) -/
def jsonEscapeChar (c : Char) : List Char :=
  if c = '"' then ['\\', '"']
  else if c = '\\' then ['\\', '\\']
  else if c = '\n' then ['\\', 'n']
  else if c = '\t' then ['\\', 't']
  else if c = '\x0d' then ['\\', 'r']
  else [c]

/-- A JSON string literal as produced by `json.dumps`. -/
def jsonString (s : String) : String :=
  "\"" ++ String.mk (s.data.map jsonEscapeChar).flatten ++ "\""

/-- Serialization `json.dumps(message_data)` of a turn dict (router line 29): keys
in insertion order `speaker`, `message`, `position`, with the default
`", "` / `": "` separators. -/
def jsonDumpsTurn (t : Turn) : String :=
  "\x7b\"speaker\": " ++ jsonString t.speaker ++
  ", \"message\": " ++ jsonString t.message ++
  ", \"position\": " ++ jsonString t.position ++ "\x7d"

/-- One SSE turn event (router lines 29-30): `data: {json}` plus the
blank line. -/
def turnEvent (t : Turn) : String :=
  "data: " ++ jsonDumpsTurn t ++ "\n\n"

/-- The terminal completion event (router line 33). -/
def doneEvent : String :=
  "data: \x7b\"done\": true\x7d\n\n"

/-- The terminal event of the `ValueError` branch (router lines 35-39). -/
def configErrorEvent : String :=
  "data: \x7b\"error\": \"Server configuration error\"\x7d\n\n"

/-- The terminal event of the generic-exception branch (router
lines 40-44). -/
def genericErrorEvent : String :=
  "data: \x7b\"error\": \"Failed to generate debate\"\x7d\n\n"

/-- Model of `debate_event_generator` (router lines 20-44) on a debate outcome:
one SSE event per yielded turn followed by the done event, or — when
`generate_debate` raises before its first yield, as it does for both
modelled error cases — a single terminal error event chosen by the
exception type (`ValueError` vs generic). -/
def debate_event_generator (outcome : Except DebateError (List Turn)) : List String :=
  match outcome with
  | Except.ok turns => turns.map turnEvent ++ [doneEvent]
  | Except.error DebateError.configError => [configErrorEvent]
  | Except.error DebateError.groundingError => [genericErrorEvent]

/-- Substring test: `needle` occurs contiguously in `hay`. -/
def containsSub (hay needle : String) : Bool :=
  hay.data.tails.any needle.data.isPrefixOf

example : containsSub "abcd" "bc" = true := by decide
example : containsSub configErrorEvent "GROQ_API_KEY" = false := by decide

/-- Topic validation of `DebateRequest` (router lines 16-17): pydantic
checks `min_length=1, max_length=500` against the raw, untrimmed
field value. -/
def DebateRequest_topic_valid (topic : String) : Prop :=
  1 ≤ topic.length ∧ topic.length ≤ 500

instance (topic : String) : Decidable (DebateRequest_topic_valid topic) :=
  inferInstanceAs (Decidable (_ ∧ _))

/-- The topic string `create_debate` hands to `debate_event_generator`
(router line 57): `body.topic.strip()`. -/
def create_debate_topic (topic : String) : String :=
  pyStrip topic


/-! ## Contact endpoints (`app/routers_contact.py`,
`app/services_contact.py`) -/

/-- How a contact service call fails: `configFailure` models the
`ValueError` raised by `get_agent` when `GROQ_API_KEY` is unset,
`genericFailure` any other exception from the model call. -/
inductive ContactFailure where
  | configFailure
  | genericFailure
deriving DecidableEq, Repr

/-- Model of `draft_contact_message` / `improve_contact_draft`
(`services_contact.py` lines 6-26): one model call whose stripped
`final_output` is returned; exceptions propagate.  `runResult` is the
combined outcome of `get_agent()` and `Runner.run`. -/
def contact_service (runResult : Except ContactFailure (Option String)) :
    Except ContactFailure String :=
  match runResult with
  | Except.error e => Except.error e
  | Except.ok out => Except.ok (pyStrip (out.getD ""))

/-- An HTTP error response raised via `HTTPException`. -/
structure HttpError where
  status : Nat
  detail : String
deriving DecidableEq, Repr

/-- Model of `create_draft` (`routers_contact.py` lines 24-39): an empty draft
becomes HTTP 502, a `ValueError` becomes HTTP 500, any other
exception becomes HTTP 502, and a non-empty draft is returned as the
response body\x27s `draft` field. -/
def create_draft (runResult : Except ContactFailure (Option String)) :
    Except HttpError String :=
  match contact_service runResult with
  | Except.ok draft =>
    if draft = "" then Except.error ⟨502, "Empty draft returned by the model"⟩
    else Except.ok draft
  | Except.error ContactFailure.configFailure =>
    Except.error ⟨500, "Server configuration error"⟩
  | Except.error ContactFailure.genericFailure =>
    Except.error ⟨502, "Failed to generate draft"⟩

/-- Model of `improve_draft` (`routers_contact.py` lines 48-63): same mapping
with the improve-specific details. -/
def improve_draft (runResult : Except ContactFailure (Option String)) :
    Except HttpError String :=
  match contact_service runResult with
  | Except.ok improved =>
    if improved = "" then Except.error ⟨502, "Empty improved draft returned by the model"⟩
    else Except.ok improved
  | Except.error ContactFailure.configFailure =>
    Except.error ⟨500, "Server configuration error"⟩
  | Except.error ContactFailure.genericFailure =>
    Except.error ⟨502, "Failed to improve draft"⟩

/-! ## Concrete oracles used by witnesses -/

/-- An oracle in which every model call completes with `None` and the
search finds nothing. -/
def silentOracle : ModelOracle :=
  { positionsOutput := none
    refineRun := Except.ok none
    webSearch := fun _ => ""
    turnOutput := fun _ _ => none }

/-- An oracle with fixed successful outputs. -/
def fixedOracle : ModelOracle :=
  { positionsOutput := some "Side 1: Cats\nSide 2: Dogs"
    refineRun := Except.ok (some "best pets")
    webSearch := fun _ => ""
    turnOutput := fun i _ => some (if i % 2 == 0 then " hey " else " yo ") }

example : generate_debate none "t" false silentOracle = Except.error DebateError.configError := by decide
example :
    (generate_debate (some "k") "t" true fixedOracle).map (List.map Turn.message) =
      Except.ok ["hey", "yo", "hey", "yo", "hey", "yo"] := by decide
example : generate_debate (some "k") "t" true ⟨none, Except.error (), fun _ => "", fun _ _ => none⟩ =
    Except.error DebateError.groundingError := by decide

/-! ## Theorems -/

/-- C1: a debate session that runs to completion emits exactly 6 turns,
with speakers strictly alternating starting with `debater_1` (turn `i`
is spoken by `debater_1` when `i` is even and by `debater_2` when `i`
is odd), and every emitted turn carries the position bound to its
speaker at session start. -/
theorem debate_emits_six_alternating_turns (groqKey : Option String) (topic : String)
    (allow_search : Bool) (o : ModelOracle) (turns : List Turn)
    (hok : generate_debate groqKey topic allow_search o = Except.ok turns) :
    turns.length = 6 ∧
    turns.map Turn.speaker =
      ["debater_1", "debater_2", "debater_1", "debater_2", "debater_1", "debater_2"] ∧
    turns.map Turn.position =
      [(extract_positions o.positionsOutput).1, (extract_positions o.positionsOutput).2,
       (extract_positions o.positionsOutput).1, (extract_positions o.positionsOutput).2,
       (extract_positions o.positionsOutput).1, (extract_positions o.positionsOutput).2] := by
  unfold generate_debate at hok
  split at hok
  · exact Except.noConfusion hok
  · split at hok
    · exact Except.noConfusion hok
    · injection hok with h
      subst h
      exact ⟨rfl, rfl, rfl⟩

/-- Witness for C1 at a concrete completed session. -/
theorem debate_emits_six_alternating_turns_witness :
    ([⟨"debater_1", "", "Supporting the topic"⟩, ⟨"debater_2", "", "Opposing the topic"⟩,
      ⟨"debater_1", "", "Supporting the topic"⟩, ⟨"debater_2", "", "Opposing the topic"⟩,
      ⟨"debater_1", "", "Supporting the topic"⟩, ⟨"debater_2", "", "Opposing the topic"⟩] :
        List Turn).length = 6 ∧
    ([⟨"debater_1", "", "Supporting the topic"⟩, ⟨"debater_2", "", "Opposing the topic"⟩,
      ⟨"debater_1", "", "Supporting the topic"⟩, ⟨"debater_2", "", "Opposing the topic"⟩,
      ⟨"debater_1", "", "Supporting the topic"⟩, ⟨"debater_2", "", "Opposing the topic"⟩] :
        List Turn).map Turn.speaker =
      ["debater_1", "debater_2", "debater_1", "debater_2", "debater_1", "debater_2"] ∧
    ([⟨"debater_1", "", "Supporting the topic"⟩, ⟨"debater_2", "", "Opposing the topic"⟩,
      ⟨"debater_1", "", "Supporting the topic"⟩, ⟨"debater_2", "", "Opposing the topic"⟩,
      ⟨"debater_1", "", "Supporting the topic"⟩, ⟨"debater_2", "", "Opposing the topic"⟩] :
        List Turn).map Turn.position =
      [(extract_positions silentOracle.positionsOutput).1,
       (extract_positions silentOracle.positionsOutput).2,
       (extract_positions silentOracle.positionsOutput).1,
       (extract_positions silentOracle.positionsOutput).2,
       (extract_positions silentOracle.positionsOutput).1,
       (extract_positions silentOracle.positionsOutput).2] :=
  debate_emits_six_alternating_turns (some "k") "t" false silentOracle _ (by decide)

/-- C6 as stated is false: when a turn model call completes with
`None` as its output, the emitted turn has `message = ""`, so the
message field of an emitted turn is not always non-empty. -/
theorem turn_message_empty_counterexample :
    generate_debate (some "k") "t" false silentOracle =
      Except.ok
        [⟨"debater_1", "", "Supporting the topic"⟩, ⟨"debater_2", "", "Opposing the topic"⟩,
         ⟨"debater_1", "", "Supporting the topic"⟩, ⟨"debater_2", "", "Opposing the topic"⟩,
         ⟨"debater_1", "", "Supporting the topic"⟩, ⟨"debater_2", "", "Opposing the topic"⟩] := by
  decide

/-- C6 corrected: every emitted turn is exactly the three-field record
with fields `speaker`, `message`, `position`, where `message` is the
stripped model output of that turn (an empty output stays empty). -/
theorem turn_is_trimmed_three_field_record (groqKey : Option String)
    (topic : String) (allow_search : Bool) (o : ModelOracle) (turns : List Turn)
    (i : Nat) (hok : generate_debate groqKey topic allow_search o = Except.ok turns)
    (hi : i < 6) :
    turns[i]? = some
      { speaker := speakerFor i
        message := pyStrip ((o.turnOutput i (promptAt topic
            (extract_positions o.positionsOutput).1
            (extract_positions o.positionsOutput).2 o.turnOutput i)).getD "")
        position := if i % 2 == 0 then (extract_positions o.positionsOutput).1
          else (extract_positions o.positionsOutput).2 } := by
  unfold generate_debate at hok
  split at hok
  · exact Except.noConfusion hok
  · split at hok
    · exact Except.noConfusion hok
    · injection hok with h
      subst h
      interval_cases i <;> rfl

/-- Witness for the corrected C6 at a concrete session and turn 2. -/
theorem turn_is_trimmed_three_field_record_witness :
    ([⟨"debater_1", "", "Supporting the topic"⟩, ⟨"debater_2", "", "Opposing the topic"⟩,
      ⟨"debater_1", "", "Supporting the topic"⟩, ⟨"debater_2", "", "Opposing the topic"⟩,
      ⟨"debater_1", "", "Supporting the topic"⟩, ⟨"debater_2", "", "Opposing the topic"⟩] :
        List Turn)[2]? = some
      { speaker := speakerFor 2
        message := pyStrip ((silentOracle.turnOutput 2 (promptAt "t"
            (extract_positions silentOracle.positionsOutput).1
            (extract_positions silentOracle.positionsOutput).2 silentOracle.turnOutput 2)).getD "")
        position := if 2 % 2 == 0 then (extract_positions silentOracle.positionsOutput).1
          else (extract_positions silentOracle.positionsOutput).2 } :=
  turn_is_trimmed_three_field_record (some "k") "t" false silentOracle _ 2 (by decide) (by decide)

/-- The property claimed by C2, at turn `k` of a session with the given
topic, positions and turn oracle: turn 0\x27s prompt is the opening
prompt with no history; the prompt of a later turn `k` is the
continuation header followed by the serialization of exactly the turns
`0..k-1` of the session in chronological order, the reply instruction,
and — exactly when `k = 5` — the closing instruction; and each history
entry is labelled `"You"` when its speaker equals the current speaker
and `"Your opponent"` otherwise. -/
def PromptStructure (topic position_1 position_2 : String)
    (turnOutput : Nat → String → Option String) (k : Nat) : Prop :=
  promptAt topic position_1 position_2 turnOutput 0 = openingPrompt topic
  ∧ (0 < k →
      promptAt topic position_1 position_2 turnOutput k =
        continuationHeader topic
        ++ String.join
          (((debateLoop topic position_1 position_2 turnOutput 6).take k).map
            (historyLine (speakerFor k)))
        ++ replyInstruction
        ++ (if k = 5 then closingInstruction else ""))
  ∧ ∀ t : Turn, historyLine (speakerFor k) t =
      (if t.speaker = speakerFor k then "You" else "Your opponent")
      ++ ": " ++ t.message ++ "\n\n"

/-- C2: prompt construction serializes exactly the prior turns, in
order, with the You / Your opponent labelling, and carries the closing
instruction exactly on turn 5. -/
theorem prompt_serializes_history (topic position_1 position_2 : String)
    (turnOutput : Nat → String → Option String) (k : Nat) (hk : k < 6) :
    PromptStructure topic position_1 position_2 turnOutput k := by
  refine ⟨rfl, ?_, ?_⟩
  · intro hpos
    interval_cases k
    all_goals
      simp [promptAt, debateLoop, debateStep, buildPrompt, String.join, speakerFor,
        String.append_assoc, String.empty_append, String.append_empty, List.foldl]
  · intro t
    by_cases h : t.speaker = speakerFor k <;> simp [historyLine, h]

/-- Witness for C2 at a concrete session and turn 3. -/
theorem prompt_serializes_history_witness :
    PromptStructure "t" "a" "b" (fun _ _ => none) 3 :=
  prompt_serializes_history "t" "a" "b" (fun _ _ => none) 3 (by decide)

/-- C3 as stated is false: when the query-refinement model call raises,
the exception propagates out of the grounding stage and aborts the
debate session instead of falling back to the raw topic as the
query. -/
theorem grounding_raises_counterexample :
    search_context_stage "coffee" true (Except.error ()) (fun _ => "") = Except.error ()
    ∧ generate_debate (some "k") "coffee" true
        ⟨none, Except.error (), fun _ => "", fun _ _ => none⟩ =
        Except.error DebateError.groundingError := by
  exact ⟨rfl, by decide⟩

/-- C3 corrected: the search half of grounding never raises — a missing
search credential or a failing search call yields the empty string —
and whenever the query-refinement model call completes, the grounding
stage returns a string, with a `None` or empty refinement output
falling back to the stripped raw topic as the query; only an exception
raised inside the query-refinement call itself escapes to the debate
session. -/
theorem grounding_total_when_refinement_completes (topic : String) (allow_search : Bool)
    (out : Option String) (webSearch : String → String) (key : Option String)
    (apiCall : Except Unit (List (String × String))) (contents : List (Except Unit String)) :
    (search_context_stage topic allow_search (Except.ok out) webSearch).isOk = true
    ∧ refine_search_query topic (Except.ok none) = Except.ok (pyStrip topic)
    ∧ refine_search_query topic (Except.ok (some "")) = Except.ok (pyStrip topic)
    ∧ perform_web_search none apiCall contents = ""
    ∧ perform_web_search key (Except.error ()) contents = "" := by
  refine ⟨?_, rfl, rfl, rfl, ?_⟩
  · cases allow_search with
    | false => rfl
    | true =>
      simp only [search_context_stage, refine_search_query]
      rfl
  · by_cases h : key.getD "" = "" <;> simp [perform_web_search, h]

/-- C4 as stated is false: a model output whose first non-empty line is
exactly the label `"Side 1:"` produces an empty first position, so the
extraction does not always return two non-empty strings. -/
theorem extract_positions_empty_counterexample :
    extract_positions (some "Side 1:\nSide 2: Dogs") = ("", "Dogs") := by decide

/-- C4 corrected: position extraction never raises and always returns
exactly two strings with the documented fallbacks — `"Supporting the
topic"` when the output has no non-empty line and `"Opposing the
topic"` when it has fewer than two — but a returned position can be
empty when its line consists of the label alone. -/
theorem extract_positions_always_two_strings (out : Option String) :
    (positionLines out = [] →
      extract_positions out = ("Supporting the topic", "Opposing the topic"))
    ∧ (∀ l, positionLines out = [l] →
      extract_positions out = (pyStrip (pyReplace l "Side 1:" ""), "Opposing the topic"))
    ∧ (∀ l₁ l₂ rest, positionLines out = l₁ :: l₂ :: rest →
      extract_positions out =
        (pyStrip (pyReplace l₁ "Side 1:" ""), pyStrip (pyReplace l₂ "Side 2:" ""))) := by
  refine ⟨fun h => ?_, fun l h => ?_, fun l₁ l₂ rest h => ?_⟩ <;>
    simp [extract_positions, h]

/-- Witness for the corrected C4 on a well-formed two-line output. -/
theorem extract_positions_always_two_strings_witness :
    extract_positions (some "Side 1: Cats\nSide 2: Dogs") =
      (pyStrip (pyReplace "Side 1: Cats" "Side 1:" ""),
       pyStrip (pyReplace "Side 2: Dogs" "Side 2:" "")) :=
  (extract_positions_always_two_strings (some "Side 1: Cats\nSide 2: Dogs")).2.2
    "Side 1: Cats" "Side 2: Dogs" [] (by decide)

/-- Every turn event starts `data: {"speaker"...`, so its ninth
character is `s`. -/
theorem turnEvent_char8 (t : Turn) : (turnEvent t).data[8]? = some 's' := by
  have h : turnEvent t =
      "data: " ++ ("\x7b\"speaker\": " ++ (jsonString t.speaker ++ (", \"message\": " ++
        (jsonString t.message ++ (", \"position\": " ++ (jsonString t.position ++
          ("\x7d" ++ "\n\n"))))))) := by
    simp [turnEvent, jsonDumpsTurn, String.append_assoc]
  rw [h, String.data_append, String.data_append, List.getElem?_append]
  rw [if_neg (by decide), List.getElem?_append, if_pos (by decide)]
  decide

/-- C5: with the Groq credential absent, the debate stream is exactly
the single generic configuration-error event: it carries no
`GROQ_API_KEY` detail, and it is not a turn event, so no turn is
emitted at all before the stream terminates. -/
theorem missing_key_single_generic_error_event (topic : String) (allow_search : Bool)
    (o : ModelOracle) :
    debate_event_generator (generate_debate none topic allow_search o) = [configErrorEvent]
    ∧ configErrorEvent = "data: \x7b\"error\": \"Server configuration error\"\x7d\n\n"
    ∧ containsSub configErrorEvent "GROQ_API_KEY" = false
    ∧ ∀ t : Turn, (configErrorEvent == turnEvent t) = false := by
  refine ⟨rfl, rfl, by decide, fun t => ?_⟩
  rw [beq_eq_false_iff_ne]
  intro heq
  have h8 : configErrorEvent.data[8]? = (turnEvent t).data[8]? := congrArg (fun s => s.data[8]?) heq
  rw [turnEvent_char8 t] at h8
  exact absurd h8 (by decide)

/-- The excerpt kept for one selected URL inside `perform_web_search`:
the formatted block when its fetch succeeded with non-empty content,
nothing otherwise. -/
def fmtFetch (p : (String × String) × Except Unit String) : Option String :=
  match p.2 with
  | Except.error _ => none
  | Except.ok content =>
    if content = "" then none else some (formatResult p.1.1 p.1.2 content)

/-- The collection loop keeps exactly the successful non-empty fetches,
formatted, in input order. -/
theorem collectResults_eq_filterMap (pairs : List ((String × String) × Except Unit String)) :
    collectResults pairs = pairs.filterMap fmtFetch := by
  induction pairs with
  | nil => rfl
  | cons hd tl ih =>
    obtain ⟨p, c⟩ := hd
    cases c with
    | error e => simp [collectResults, fmtFetch, List.filterMap_cons, ih]
    | ok content =>
      by_cases h : content = "" <;>
        simp [collectResults, fmtFetch, List.filterMap_cons, h, ih]

/-- C7: with the search credential set and the search call succeeding,
the joined grounding result is exactly the successful non-empty
excerpts of the selected URLs, in discovery order, each formatted with
title, body and source URL and separated by the divider; when no fetch
yields content, the overall result is the empty string. -/
theorem web_search_joins_successful_excerpts (key : String)
    (organic : List (String × String)) (contents : List (Except Unit String))
    (hkey : key ≠ "") :
    perform_web_search (some key) (Except.ok organic) contents =
      String.intercalate searchDivider
        (((selectUrls organic).zip contents).filterMap fmtFetch)
    ∧ (((selectUrls organic).zip contents).filterMap fmtFetch = [] →
        perform_web_search (some key) (Except.ok organic) contents = "") := by
  have hc := collectResults_eq_filterMap ((selectUrls organic).zip contents)
  by_cases hu : selectUrls organic = []
  · constructor
    · simp [perform_web_search, hkey, hu, String.intercalate]
    · intro _
      simp [perform_web_search, hkey, hu]
  · by_cases hr : ((selectUrls organic).zip contents).filterMap fmtFetch = []
    · constructor
      · simp [perform_web_search, hkey, hu, hc, hr, String.intercalate]
      · intro _
        simp [perform_web_search, hkey, hu, hc, hr]
    · constructor
      · simp [perform_web_search, hkey, hu, hc, hr]
      · intro h
        exact absurd h hr

/-- Witness for C7: of 3 selected URLs, two fetches fail or come back
empty and one succeeds; the join is exactly that one excerpt. -/
theorem web_search_joins_successful_excerpts_witness :
    perform_web_search (some "k") (Except.ok [("u1", "t1"), ("u2", "t2"), ("u3", "t3")])
        [Except.error (), Except.ok "", Except.ok "body"] =
      String.intercalate searchDivider
        (((selectUrls [("u1", "t1"), ("u2", "t2"), ("u3", "t3")]).zip
            [Except.error (), Except.ok "", Except.ok "body"]).filterMap fmtFetch)
    ∧ (((selectUrls [("u1", "t1"), ("u2", "t2"), ("u3", "t3")]).zip
          [Except.error (), Except.ok "", Except.ok "body"]).filterMap fmtFetch = [] →
        perform_web_search (some "k") (Except.ok [("u1", "t1"), ("u2", "t2"), ("u3", "t3")])
          [Except.error (), Except.ok "", Except.ok "body"] = "") :=
  web_search_joins_successful_excerpts "k" [("u1", "t1"), ("u2", "t2"), ("u3", "t3")]
    [Except.error (), Except.ok "", Except.ok "body"] (by decide)

example :
    perform_web_search (some "k") (Except.ok [("u1", "t1"), ("u2", "t2"), ("u3", "t3")])
      [Except.error (), Except.ok "", Except.ok "body"] = formatResult "u3" "t3" "body" := by
  decide

example :
    perform_web_search (some "k") (Except.ok [("u1", "t1"), ("u2", "t2")])
      [Except.error (), Except.ok ""] = "" := by decide

/-- C8 as stated is false: pydantic validates the 1..500 length bounds
on the raw topic and the router strips it afterwards, so the
all-whitespace topic `" "` passes validation and reaches the
orchestrator as the empty string. -/
theorem whitespace_topic_reaches_orchestrator_empty :
    DebateRequest_topic_valid " " ∧ create_debate_topic " " = "" :=
  ⟨by decide, by decide⟩

/-- C8 corrected: validation bounds the raw topic to 1..500 characters
and the orchestrator receives the stripped topic, whose length is
still at most 500 but can be zero when the raw topic is all
whitespace. -/
theorem orchestrator_topic_is_stripped_and_bounded (topic : String)
    (hv : DebateRequest_topic_valid topic) :
    create_debate_topic topic = pyStrip topic ∧ (pyStrip topic).length ≤ 500 := by
  refine ⟨rfl, ?_⟩
  have h2 : (stripList topic.data).length ≤ topic.data.length := by
    unfold stripList
    rw [List.length_reverse]
    calc ((topic.data.dropWhile pyIsSpace).reverse.dropWhile pyIsSpace).length
        ≤ (topic.data.dropWhile pyIsSpace).reverse.length :=
          (List.dropWhile_sublist _).length_le
      _ = (topic.data.dropWhile pyIsSpace).length := List.length_reverse _
      _ ≤ topic.data.length := (List.dropWhile_sublist _).length_le
  exact le_trans h2 hv.2

/-- Witness for the corrected C8. -/
theorem orchestrator_topic_is_stripped_and_bounded_witness :
    create_debate_topic " hi " = pyStrip " hi " ∧ (pyStrip " hi ").length ≤ 500 :=
  orchestrator_topic_is_stripped_and_bounded " hi " (by decide)

/-- C9: for both contact endpoints, a configuration failure (missing
model credential) maps to HTTP 500, a generic generation failure maps
to HTTP 502, and a completed model call yields HTTP 502 when the
stripped draft is empty and otherwise the non-empty draft as the
response body. -/
theorem contact_endpoints_error_mapping (out : Option String) :
    create_draft (Except.error ContactFailure.configFailure) =
      Except.error ⟨500, "Server configuration error"⟩
    ∧ improve_draft (Except.error ContactFailure.configFailure) =
      Except.error ⟨500, "Server configuration error"⟩
    ∧ create_draft (Except.error ContactFailure.genericFailure) =
      Except.error ⟨502, "Failed to generate draft"⟩
    ∧ improve_draft (Except.error ContactFailure.genericFailure) =
      Except.error ⟨502, "Failed to improve draft"⟩
    ∧ create_draft (Except.ok out) =
        (if pyStrip (out.getD "") = "" then
          Except.error ⟨502, "Empty draft returned by the model"⟩
        else Except.ok (pyStrip (out.getD "")))
    ∧ improve_draft (Except.ok out) =
        (if pyStrip (out.getD "") = "" then
          Except.error ⟨502, "Empty improved draft returned by the model"⟩
        else Except.ok (pyStrip (out.getD ""))) :=
  ⟨rfl, rfl, rfl, rfl, rfl, rfl⟩

example : create_draft (Except.ok (some "  ")) =
    Except.error ⟨502, "Empty draft returned by the model"⟩ := by decide
example : improve_draft (Except.ok (some " Hi José ")) = Except.ok "Hi José" := by decide

/-- C10: when the search stage finds nothing (the web search for the
refined query returns the empty string), the search-context block is
omitted entirely, the stage result equals the `allow_search = False`
one, and every persona instruction string built from it is identical
to the one built with search disabled. -/
theorem empty_grounding_equals_search_disabled (topic q : String) (refineOut : Option String)
    (webSearch : String → String)
    (hq : refine_search_query topic (Except.ok refineOut) = Except.ok q)
    (hempty : webSearch q = "") :
    search_context_stage topic true (Except.ok refineOut) webSearch = Except.ok ""
    ∧ search_context_stage topic true (Except.ok refineOut) webSearch =
        search_context_stage topic false (Except.ok refineOut) webSearch
    ∧ ∀ position : String,
        (search_context_stage topic true (Except.ok refineOut) webSearch).map
            (fun ctx => persona_instructions ctx position topic) =
          (search_context_stage topic false (Except.ok refineOut) webSearch).map
            (fun ctx => persona_instructions ctx position topic) := by
  have h1 : search_context_stage topic true (Except.ok refineOut) webSearch = Except.ok "" := by
    unfold search_context_stage
    rw [if_pos rfl, hq]
    simp [hempty]
  exact ⟨h1, by rw [h1]; rfl, fun position => by rw [h1]; rfl⟩

/-- Witness for C10 at a concrete topic and an empty-result search. -/
theorem empty_grounding_equals_search_disabled_witness :
    search_context_stage "t" true (Except.ok (some "q")) (fun _ => "") = Except.ok ""
    ∧ search_context_stage "t" true (Except.ok (some "q")) (fun _ => "") =
        search_context_stage "t" false (Except.ok (some "q")) (fun _ => "")
    ∧ ∀ position : String,
        (search_context_stage "t" true (Except.ok (some "q")) (fun _ => "")).map
            (fun ctx => persona_instructions ctx position "t") =
          (search_context_stage "t" false (Except.ok (some "q")) (fun _ => "")).map
            (fun ctx => persona_instructions ctx position "t") :=
  empty_grounding_equals_search_disabled "t" "q" (some "q") (fun _ => "") (by decide) rfl
